import Mathlib

/-!
# School management API (`src/index.js`)

A shallow embedding of the two Express handlers of `src/index.js`
(`POST /addSchool`, `GET /listSchools`), of the JavaScript values they inspect,
and of the MySQL table they talk to through `pool.execute`.

* JavaScript numbers are `JsNum`: `NaN`, the two infinities, and the finite values.
  Every finite double is a rational number, so finite values are carried as `ℚ`;
  universally quantified statements therefore cover every double, and the concrete
  inputs used below are rationals that are doubles.  The two zeros are one value
  (they are both falsy and compare alike).
* `pool.execute` is a parameter of the handlers (`Pool`); `mysqlPool` is the table
  `schools` created by `initializeDb`.  The floating-point evaluation of the `ORDER BY`
  expression by the database engine is a parameter of that table (`OrderKey`).
-/

namespace SchoolApi

/-! ## JavaScript values -/

/-- A JavaScript number. -/
inductive JsNum where
  | nan
  | posInf
  | negInf
  | fin (q : ℚ)
  deriving DecidableEq

namespace JsNum

/-- The relational operator `a < b` on numbers (false as soon as one side is `NaN`). -/
def lt : JsNum → JsNum → Bool
  | nan, _ => false
  | _, nan => false
  | posInf, _ => false
  | _, negInf => false
  | negInf, _ => true
  | fin _, posInf => true
  | fin a, fin b => decide (a < b)

/-- The relational operator `a > b`, which JavaScript evaluates as `b < a`. -/
def gt (a b : JsNum) : Bool := lt b a

/-- The global `isNaN` on a number. -/
def isNaN : JsNum → Bool
  | nan => true
  | _ => false

/-- A number below `lo` or above `hi`; `NaN` is neither below nor above anything. -/
def Outside (lo hi : ℚ) : JsNum → Prop
  | fin q => q < lo ∨ hi < q
  | posInf => True
  | negInf => True
  | nan => False

/-- A number of the closed interval from `lo` to `hi`. -/
def Within (lo hi : ℚ) : JsNum → Prop
  | fin q => lo ≤ q ∧ q ≤ hi
  | _ => False

end JsNum

/-- A JavaScript value as `express.json()` or the query parser can put it in a request.
The contents of arrays and objects are never inspected by the handlers (only
truthiness, `typeof` and `=== undefined` are), so they are not carried. -/
inductive JsValue where
  | undefined
  | null
  | bool (b : Bool)
  | number (n : JsNum)
  | string (s : String)
  | array
  | object
  deriving DecidableEq

namespace JsValue

/-- The `typeof` operator. -/
def typeOf : JsValue → String
  | undefined => "undefined"
  | null => "object"
  | bool _ => "boolean"
  | number _ => "number"
  | string _ => "string"
  | array => "object"
  | object => "object"

/-- The abstract operation ToBoolean: `!v` is `!(truthy v)`. -/
def truthy : JsValue → Bool
  | undefined => false
  | null => false
  | bool b => b
  | number .nan => false
  | number (.fin q) => decide (q ≠ 0)
  | number _ => true
  | string s => decide (s ≠ "")
  | array => true
  | object => true

end JsValue

/-! ## Requests, responses and the connection pool -/

/-- The four properties the handler destructures from `req.body`
(`undefined` for a key that is absent). -/
structure Body where
  name : JsValue
  address : JsValue
  latitude : JsValue
  longitude : JsValue
  deriving DecidableEq

/-- A row of the table `schools`.  A `FLOAT` column holds finite values only. -/
structure School where
  id : ℕ
  name : String
  address : String
  latitude : ℚ
  longitude : ℚ
  deriving DecidableEq

/-- The JSON document handed to `res.json`. -/
inductive ResBody where
  | error (error : String)
  | added (message : String) (schoolId : ℕ)
  | schools (rows : List School)
  deriving DecidableEq

/-- An HTTP response: status code (200 unless `res.status` was called) and body. -/
structure Response where
  status : ℕ
  body : ResBody
  deriving DecidableEq

/-- The statements the handlers pass to `pool.execute`, with their bound parameters. -/
inductive Stmt where
  | insertSchool (params : List JsValue)
  | selectByDistance (params : List JsValue)
  deriving DecidableEq

/-- The value a rejected `pool.execute` promise carries. -/
abbrev StoreError := String

/-- The connection pool: `pool.execute` for each of the two statements, as a function of
the bound parameters and of the store state `σ`.  A rejected promise is `Except.error`;
a fulfilled one carries `results.insertId`, respectively the rows. -/
structure Pool (σ : Type) where
  executeInsert : List JsValue → σ → Except StoreError ℕ × σ
  executeSelect : List JsValue → σ → Except StoreError (List School) × σ

/-- What one run of a handler does: the response sent, the store state afterwards, and
the statements executed, in order. -/
structure Outcome (σ : Type) where
  response : Response
  state : σ
  executed : List Stmt

/-- The early return `res.status(400).json({ error })`: nothing is executed. -/
def badRequest {σ : Type} (s : σ) (msg : String) : Outcome σ :=
  ⟨⟨400, .error msg⟩, s, []⟩

/-- The `try`/`catch` block of `POST /addSchool`: one `pool.execute` of the insert with
`params`; `results.insertId` goes into the answer, a rejection becomes the fixed 500. -/
def tryInsert {σ : Type} (pool : Pool σ) (params : List JsValue) (s : σ) : Outcome σ :=
  match pool.executeInsert params s with
  | (.ok insertId, s') =>
    ⟨⟨200, .added "School added successfully" insertId⟩, s', [.insertSchool params]⟩
  | (.error _, s') =>
    ⟨⟨500, .error "Internal Server Error"⟩, s', [.insertSchool params]⟩

/-- The handler of `POST /addSchool`. -/
def addSchool {σ : Type} (pool : Pool σ) (body : Body) (s : σ) : Outcome σ :=
  if !body.name.truthy || !body.address.truthy
      || body.latitude == .undefined || body.longitude == .undefined then
    badRequest s "All fields (name, address, latitude, longitude) are required"
  else if body.name.typeOf != "string" || body.address.typeOf != "string" then
    badRequest s "Name and address must be strings"
  else
    match body.latitude, body.longitude with
    | .number latitude, .number longitude =>
      if latitude.lt (.fin (-90)) || latitude.gt (.fin 90) then
        badRequest s "Latitude must be between -90 and 90"
      else if longitude.lt (.fin (-180)) || longitude.gt (.fin 180) then
        badRequest s "Longitude must be between -180 and 180"
      else
        tryInsert pool [body.name, body.address, body.latitude, body.longitude] s
    | _, _ =>
      -- `typeof latitude !== 'number' || typeof longitude !== 'number'`
      badRequest s "Latitude and longitude must be numbers"

/-! ## `parseFloat` -/

/-- `StrWhiteSpaceChar` of ECMA-262 (white space and line terminators), by code point:
the characters `parseFloat` skips at the start of its argument. -/
def isStrWhiteSpaceChar (c : Char) : Bool :=
  [0x09, 0x0A, 0x0B, 0x0C, 0x0D, 0x20, 0xA0, 0x1680, 0x2000, 0x2001, 0x2002, 0x2003,
    0x2004, 0x2005, 0x2006, 0x2007, 0x2008, 0x2009, 0x200A, 0x2028, 0x2029, 0x202F,
    0x205F, 0x3000, 0xFEFF].contains c.toNat

/-- `DecimalDigit`. -/
def isDecimalDigit (c : Char) : Bool :=
  decide (48 ≤ c.toNat) && decide (c.toNat ≤ 57)

/-- The mathematical value of a run of `DecimalDigits`. -/
def digitsValue (ds : List Char) : ℕ :=
  ds.foldl (fun n c => 10 * n + (c.toNat - 48)) 0

/-- The value of `DecimalDigits` at the start of `cs` when there is at least one digit. -/
def leadingDigits (cs : List Char) : Option ℕ :=
  if cs.takeWhile isDecimalDigit = [] then none
  else some (digitsValue (cs.takeWhile isDecimalDigit))

/-- The value of the longest `ExponentPart` (`e` or `E`, an optional sign, digits) at the
start of `cs`; `0` when there is none, so that the literal stops before `cs`. -/
def exponentPart : List Char → ℤ
  | [] => 0
  | c :: rest =>
    if c = 'e' ∨ c = 'E' then
      match rest with
      | '+' :: ds => ((leadingDigits ds).getD 0 : ℕ)
      | '-' :: ds => -((leadingDigits ds).getD 0 : ℕ)
      | ds => ((leadingDigits ds).getD 0 : ℕ)
    else 0

/-- Rounding of a rational to the nearest integer, ties to even. -/
def roundHalfEven (x : ℚ) : ℤ :=
  if x - ⌊x⌋ < 1 / 2 then ⌊x⌋
  else if 1 / 2 < x - ⌊x⌋ then ⌊x⌋ + 1
  else if ⌊x⌋ % 2 = 0 then ⌊x⌋ else ⌊x⌋ + 1

/-- IEEE 754 round-to-nearest-even of `q` to a binary format with `p` fraction bits and
least normal exponent `emin` (no overflow handling: the result may exceed the format). -/
def roundBinary (p : ℕ) (emin : ℤ) (q : ℚ) : ℚ :=
  if q = 0 then 0
  else
    roundHalfEven (q / 2 ^ (max (Int.log 2 |q|) emin - p)) * 2 ^ (max (Int.log 2 |q|) emin - p)

/-- The Number value for a rational: the nearest double, an infinity past the largest. -/
def toDouble (q : ℚ) : JsNum :=
  if 2 ^ 1024 ≤ roundBinary 52 (-1022) q then .posInf
  else if roundBinary 52 (-1022) q ≤ -2 ^ 1024 then .negInf
  else .fin (roundBinary 52 (-1022) q)

/-- The longest prefix of `cs` that is a `StrUnsignedDecimalLiteral`: `some (some q)` with
its mathematical value `q`, `some none` for `Infinity`, `none` when no prefix is one. -/
def strUnsignedDecimalLiteral (cs : List Char) : Option (Option ℚ) :=
  if cs.take 8 = ['I', 'n', 'f', 'i', 'n', 'i', 't', 'y'] then some none
  else
    match cs.dropWhile isDecimalDigit with
    | '.' :: rest =>
      if cs.takeWhile isDecimalDigit = [] ∧ rest.takeWhile isDecimalDigit = [] then none
      else
        some (some (((digitsValue (cs.takeWhile isDecimalDigit) : ℚ)
          + (digitsValue (rest.takeWhile isDecimalDigit) : ℚ)
              / 10 ^ (rest.takeWhile isDecimalDigit).length)
          * 10 ^ exponentPart (rest.dropWhile isDecimalDigit)))
    | rest =>
      if cs.takeWhile isDecimalDigit = [] then none
      else some (some ((digitsValue (cs.takeWhile isDecimalDigit) : ℚ) * 10 ^ exponentPart rest))

/-- The global `parseFloat` on a string: leading white space is skipped, the longest
prefix that is a `StrDecimalLiteral` is converted, anything after it is ignored, and the
result is `NaN` when there is no such prefix. -/
def parseFloat (s : String) : JsNum :=
  match s.toList.dropWhile isStrWhiteSpaceChar with
  | '-' :: cs =>
    match strUnsignedDecimalLiteral cs with
    | none => .nan
    | some none => .negInf
    | some (some q) => toDouble (-q)
  | '+' :: cs =>
    match strUnsignedDecimalLiteral cs with
    | none => .nan
    | some none => .posInf
    | some (some q) => toDouble q
  | cs =>
    match strUnsignedDecimalLiteral cs with
    | none => .nan
    | some none => .posInf
    | some (some q) => toDouble q

/-! ## `GET /listSchools` -/

/-- The two properties the handler destructures from `req.query`: `none` for a parameter
that is absent, the decoded text otherwise (repeated or bracketed parameters, which the
query parser turns into arrays and objects, are outside this model). -/
structure Query where
  latitude : Option String
  longitude : Option String
  deriving DecidableEq

/-- ToBoolean of a query parameter: `undefined` and the empty string are falsy. -/
def Query.truthy : Option String → Bool
  | none => false
  | some s => decide (s ≠ "")

/-- The `try`/`catch` block of `GET /listSchools`: one `pool.execute` of the select with
`params`; the rows are the answer as they come, a rejection becomes the fixed 500. -/
def trySelect {σ : Type} (pool : Pool σ) (params : List JsValue) (s : σ) : Outcome σ :=
  match pool.executeSelect params s with
  | (.ok results, s') => ⟨⟨200, .schools results⟩, s', [.selectByDistance params]⟩
  | (.error _, s') =>
    ⟨⟨500, .error "Internal Server Error"⟩, s', [.selectByDistance params]⟩

/-- The handler of `GET /listSchools`. -/
def listSchools {σ : Type} (pool : Pool σ) (query : Query) (s : σ) : Outcome σ :=
  if !Query.truthy query.latitude || !Query.truthy query.longitude then
    badRequest s "Latitude and longitude are required"
  else
    let lat := parseFloat (query.latitude.getD "")
    let lng := parseFloat (query.longitude.getD "")
    if lat.isNaN || lng.isNaN then
      badRequest s "Latitude and longitude must be numbers"
    else
      trySelect pool [.number lat, .number lng, .number lat] s

/-! ## The table `schools` -/

/-- The table: its rows in insertion order and the `AUTO_INCREMENT` counter. -/
structure Db where
  rows : List School
  autoIncrement : ℕ

/-- `CREATE TABLE IF NOT EXISTS schools (...)`: an absent table is created empty, with the
counter at 1; an existing one is left as it is. -/
def initializeDb : Option Db → Db
  | none => ⟨[], 1⟩
  | some db => db

/-- What a `FLOAT` column stores for a value: the nearest single-precision number;
`none` when that is out of the range of the type (the statement is rejected). -/
def toFloat (q : ℚ) : Option ℚ :=
  if |roundBinary 23 (-126) q| < 2 ^ 128 then some (roundBinary 23 (-126) q) else none

/-- `INSERT INTO schools (name, address, latitude, longitude) VALUES (?, ?, ?, ?)`.
The `VARCHAR(255)` columns reject longer text (strict SQL mode, the server default), the
`FLOAT` columns store single precision, `id INT AUTO_INCREMENT` takes the counter, which
cannot pass the largest `INT`.  Parameters of another shape (the handler binds none,
apart from a `NaN`, which no column can hold) are rejected. -/
def Db.insert (params : List JsValue) (db : Db) : Except StoreError ℕ × Db :=
  match params with
  | [.string name, .string address, .number (.fin latitude), .number (.fin longitude)] =>
    if 255 < name.length ∨ 255 < address.length then (.error "ER_DATA_TOO_LONG", db)
    else if 2147483647 < db.autoIncrement then (.error "ER_AUTOINC_READ_FAILED", db)
    else
      match toFloat latitude, toFloat longitude with
      | some la, some lo =>
        (.ok db.autoIncrement,
          ⟨db.rows ++ [⟨db.autoIncrement, name, address, la, lo⟩], db.autoIncrement + 1⟩)
      | _, _ => (.error "ER_WARN_DATA_OUT_OF_RANGE", db)
  | _ => (.error "ER_WRONG_ARGUMENTS", db)

/-- What the database engine computes for the `ORDER BY` expression
`6371 * acos(cos(radians(?)) * cos(radians(latitude)) * cos(radians(longitude) - radians(?))
+ sin(radians(?)) * sin(radians(latitude)))` of the select, from the three bound
parameters and a row: a double, or `NULL` (`none`; `ACOS` is `NULL` outside [-1, 1]).
The engine evaluates it in IEEE double arithmetic with the trigonometric functions of its
platform, which are no part of the repository: the evaluation is a parameter of the
table model. -/
abbrev OrderKey := List JsValue → School → Option ℚ

/-- The ascending order of `ORDER BY` on keys: `NULL` sorts before every number. -/
def OrderKey.le : Option ℚ → Option ℚ → Bool
  | none, _ => true
  | some _, none => false
  | some a, some b => decide (a ≤ b)

/-- `SELECT id, name, address, latitude, longitude FROM schools ORDER BY (...)`: every row
(there is no `WHERE` and no `LIMIT`), with all five columns, sorted ascending on the keys
the engine computes; rows with equal keys come in one of the orders SQL allows. -/
def Db.select (key : OrderKey) (params : List JsValue) (db : Db) :
    Except StoreError (List School) × Db :=
  (.ok (db.rows.insertionSort
    (fun a b => OrderKey.le (key params a) (key params b) = true)), db)

/-- The pool in front of the table, for an engine that computes the keys `key`.  `fault`
is what the backend does to the statement besides the above: `some e` is a failure `e`
(connectivity loss, timeout, a value out of range, ...), which leaves the table as it
was. -/
def mysqlPool (key : OrderKey) (fault : Option StoreError) : Pool Db where
  executeInsert params db :=
    match fault with
    | some e => (.error e, db)
    | none => db.insert params
  executeSelect params db :=
    match fault with
    | some e => (.error e, db)
    | none => db.select key params

/-- The engine for which the `ORDER BY` expression is `NULL` on every row.  It is the
engine of the closed examples below, whose answers are the same for every engine. -/
def nullKeys : OrderKey := fun _ _ => none

/-- A request to the service, with what the backend does to its statement. -/
inductive Request where
  | addSchool (body : Body) (fault : Option StoreError)
  | listSchools (query : Query) (fault : Option StoreError)

/-- One request served against the table. -/
def serve (key : OrderKey) (db : Db) : Request → Outcome Db
  | .addSchool body fault => addSchool (mysqlPool key fault) body db
  | .listSchools query fault => listSchools (mysqlPool key fault) query db

/-- The table after a sequence of requests served one after the other. -/
def runFrom (key : OrderKey) (db : Db) (reqs : List Request) : Db :=
  reqs.foldl (fun d r => (serve key d r).state) db

/-- The table after a sequence of requests, starting from the table `initializeDb`
creates. -/
def run (key : OrderKey) (reqs : List Request) : Db :=
  runFrom key (initializeDb none) reqs

/-- The bodies a request can carry: `express.json()` builds `req.body` with `JSON.parse`,
which yields every number (an overflowing literal gives an infinity) except `NaN`. -/
def Body.Receivable (body : Body) : Prop :=
  body.name ≠ .number .nan ∧ body.address ≠ .number .nan
    ∧ body.latitude ≠ .number .nan ∧ body.longitude ≠ .number .nan

/-- The data-model invariant of a stored school: coordinates in range, texts non-empty. -/
def School.Valid (row : School) : Prop :=
  -90 ≤ row.latitude ∧ row.latitude ≤ 90 ∧ -180 ≤ row.longitude ∧ row.longitude ≤ 180
    ∧ row.name ≠ "" ∧ row.address ≠ ""

/-- The `AUTO_INCREMENT` counter is positive and past every identifier in the table. -/
def Db.WF (db : Db) : Prop :=
  0 < db.autoIncrement ∧ ∀ row ∈ db.rows, row.id < db.autoIncrement

/-! ## Helper lemmas on the handlers -/

theorem outside_iff (lo hi : ℚ) (n : JsNum) :
    JsNum.Outside lo hi n ↔ (n.lt (.fin lo) || n.gt (.fin hi)) = true := by
  cases n <;> simp [JsNum.Outside, JsNum.lt, JsNum.gt]

theorem tryInsert_executed {σ : Type} (pool : Pool σ) (params : List JsValue) (s : σ) :
    (tryInsert pool params s).executed = [.insertSchool params] := by
  unfold tryInsert; split <;> rfl

theorem tryInsert_state {σ : Type} (pool : Pool σ) (params : List JsValue) (s : σ) :
    (tryInsert pool params s).state = (pool.executeInsert params s).2 := by
  unfold tryInsert; split <;> simp_all

theorem tryInsert_ok {σ : Type} (pool : Pool σ) (params : List JsValue) (s : σ) (id : ℕ)
    (h : (pool.executeInsert params s).1 = .ok id) :
    (tryInsert pool params s).response = ⟨200, .added "School added successfully" id⟩ := by
  unfold tryInsert; split <;> simp_all

theorem tryInsert_error {σ : Type} (pool : Pool σ) (params : List JsValue) (s : σ)
    (e : StoreError) (h : (pool.executeInsert params s).1 = .error e) :
    (tryInsert pool params s).response = ⟨500, .error "Internal Server Error"⟩ := by
  unfold tryInsert; split <;> simp_all

theorem trySelect_executed {σ : Type} (pool : Pool σ) (params : List JsValue) (s : σ) :
    (trySelect pool params s).executed = [.selectByDistance params] := by
  unfold trySelect; split <;> rfl

theorem trySelect_state {σ : Type} (pool : Pool σ) (params : List JsValue) (s : σ) :
    (trySelect pool params s).state = (pool.executeSelect params s).2 := by
  unfold trySelect; split <;> simp_all

theorem trySelect_ok {σ : Type} (pool : Pool σ) (params : List JsValue) (s : σ)
    (rows : List School) (h : (pool.executeSelect params s).1 = .ok rows) :
    (trySelect pool params s).response = ⟨200, .schools rows⟩ := by
  unfold trySelect; split <;> simp_all

theorem trySelect_error {σ : Type} (pool : Pool σ) (params : List JsValue) (s : σ)
    (e : StoreError) (h : (pool.executeSelect params s).1 = .error e) :
    (trySelect pool params s).response = ⟨500, .error "Internal Server Error"⟩ := by
  unfold trySelect; split <;> simp_all

/-- The handler once the presence and type checks have passed. -/
theorem addSchool_of_typed {σ : Type} (pool : Pool σ) (s : σ) (name address : String)
    (lat lng : JsNum) (hn : name ≠ "") (ha : address ≠ "") :
    addSchool pool ⟨.string name, .string address, .number lat, .number lng⟩ s =
      if (lat.lt (.fin (-90)) || lat.gt (.fin 90)) = true then
        badRequest s "Latitude must be between -90 and 90"
      else if (lng.lt (.fin (-180)) || lng.gt (.fin 180)) = true then
        badRequest s "Longitude must be between -180 and 180"
      else
        tryInsert pool [.string name, .string address, .number lat, .number lng] s := by
  simp [addSchool, JsValue.truthy, JsValue.typeOf, hn, ha]

/-- Every run of the `POST /addSchool` handler either returns early with a 400, or has
passed all the checks and runs its `try` block on the four submitted values. -/
theorem addSchool_cases {σ : Type} (pool : Pool σ) (body : Body) (s : σ) :
    (∃ msg, addSchool pool body s = badRequest s msg)
    ∨ (∃ (name address : String) (lat lng : JsNum),
        body = ⟨.string name, .string address, .number lat, .number lng⟩
        ∧ name ≠ "" ∧ address ≠ ""
        ∧ ¬ JsNum.Outside (-90) 90 lat ∧ ¬ JsNum.Outside (-180) 180 lng
        ∧ addSchool pool body s
          = tryInsert pool [.string name, .string address, .number lat, .number lng] s) := by
  obtain ⟨n, a, la, lo⟩ := body
  by_cases h1 : (!n.truthy || !a.truthy || la == .undefined || lo == .undefined) = true
  · left; exact ⟨_, by simp only [addSchool, h1, if_true]; rfl⟩
  by_cases h2 : (n.typeOf != "string" || a.typeOf != "string") = true
  · left; exact ⟨_, by simp only [addSchool, h1, h2, if_true, if_false]; rfl⟩
  cases n <;> try (exfalso; revert h2; simp [JsValue.typeOf]; done)
  cases a <;> try (exfalso; revert h2; simp [JsValue.typeOf]; done)
  rename_i name address
  have hn : name ≠ "" := by
    intro h; apply h1; simp [JsValue.truthy, h]
  have ha : address ≠ "" := by
    intro h; apply h1; simp [JsValue.truthy, h]
  have h1' : la ≠ .undefined ∧ lo ≠ .undefined := by
    constructor <;> (intro h; apply h1; simp [h])
  by_cases h5 : ∃ lat lng, la = .number lat ∧ lo = .number lng
  swap
  · left
    refine ⟨"Latitude and longitude must be numbers", ?_⟩
    simp only [addSchool, h1, h2, Bool.false_eq_true, if_false]
    split
    · exact absurd ⟨_, _, rfl, rfl⟩ h5
    · rfl
  obtain ⟨lat, lng, rfl, rfl⟩ := h5
  rw [addSchool_of_typed pool s name address lat lng hn ha]
  by_cases h3 : (lat.lt (.fin (-90)) || lat.gt (.fin 90)) = true
  · left; exact ⟨_, by rw [if_pos h3]⟩
  by_cases h4 : (lng.lt (.fin (-180)) || lng.gt (.fin 180)) = true
  · left; exact ⟨_, by rw [if_neg h3, if_pos h4]⟩
  right
  refine ⟨name, address, lat, lng, rfl, hn, ha, fun h => h3 ((outside_iff _ _ _).1 h),
    fun h => h4 ((outside_iff _ _ _).1 h), by rw [if_neg h3, if_neg h4]⟩

/-- Every run of the `GET /listSchools` handler either returns early with a 400, or runs its
`try` block on the parsed coordinates, neither of which is `NaN`. -/
theorem listSchools_cases {σ : Type} (pool : Pool σ) (query : Query) (s : σ) :
    (∃ msg, listSchools pool query s = badRequest s msg)
    ∨ (∃ latitude longitude : String,
        query = ⟨some latitude, some longitude⟩
        ∧ latitude ≠ "" ∧ longitude ≠ ""
        ∧ parseFloat latitude ≠ .nan ∧ parseFloat longitude ≠ .nan
        ∧ listSchools pool query s
          = trySelect pool [.number (parseFloat latitude), .number (parseFloat longitude),
              .number (parseFloat latitude)] s) := by
  obtain ⟨la, lo⟩ := query
  by_cases h1 : (!Query.truthy la || !Query.truthy lo) = true
  · left; exact ⟨_, by simp only [listSchools, h1, if_true]; rfl⟩
  cases la <;> try (exfalso; revert h1; simp [Query.truthy]; done)
  cases lo <;> try (exfalso; revert h1; simp [Query.truthy]; done)
  rename_i latitude longitude
  have hn : latitude ≠ "" := by
    intro h; apply h1; simp [Query.truthy, h]
  have ha : longitude ≠ "" := by
    intro h; apply h1; simp [Query.truthy, h]
  by_cases h2 : ((parseFloat latitude).isNaN || (parseFloat longitude).isNaN) = true
  · left; exact ⟨_, by simp only [listSchools, h1, Option.getD_some, h2, if_true, if_false]; rfl⟩
  right
  refine ⟨latitude, longitude, rfl, hn, ha, ?_, ?_, ?_⟩
  · intro h; apply h2; simp [h, JsNum.isNaN]
  · intro h; apply h2; simp [h, JsNum.isNaN]
  · simp only [listSchools, h1, Option.getD_some, h2, Bool.false_eq_true, if_false]

/-! ## Helper lemmas on the rounding of the `FLOAT` columns -/

theorem roundHalfEven_le (x : ℚ) (n : ℤ) (h : x ≤ n) : roundHalfEven x ≤ n := by
  have hfl : ⌊x⌋ ≤ n := (Int.floor_le_floor h).trans_eq (Int.floor_intCast n)
  rcases hfl.lt_or_eq with hlt | heq
  · unfold roundHalfEven
    split_ifs <;> omega
  · have hx : x = n := le_antisymm h (heq ▸ Int.floor_le x)
    subst hx
    simp [roundHalfEven]

theorem le_roundHalfEven (x : ℚ) (n : ℤ) (h : (n : ℚ) ≤ x) : n ≤ roundHalfEven x := by
  have hfl : n ≤ ⌊x⌋ := Int.le_floor.2 h
  unfold roundHalfEven
  split_ifs <;> omega

theorem roundBinary_abs_le (p : ℕ) (emin : ℤ) (q : ℚ) (B k : ℕ) (hB : |q| ≤ B)
    (hk : (B : ℚ) < 2 ^ k) (hkp : k ≤ p + 1) (hemin : emin ≤ p) :
    |roundBinary p emin q| ≤ B := by
  unfold roundBinary
  split_ifs with h0
  · simp
  have hq : 0 < |q| := abs_pos.2 h0
  have hlog : Int.log 2 |q| < k := by
    rw [← Int.lt_zpow_iff_log_lt (by norm_num) hq]
    calc |q| ≤ B := hB
      _ < 2 ^ k := hk
      _ = ((2 : ℕ) : ℚ) ^ (k : ℤ) := by norm_cast
  set e := max (Int.log 2 |q|) emin with he
  have hep : e ≤ p := by
    rw [he]; apply max_le <;> omega
  obtain ⟨m, hm⟩ : ∃ m : ℕ, (p : ℤ) - e = m := ⟨(p - e).toNat, by omega⟩
  have hulp : (2 : ℚ) ^ (e - p) = 1 / 2 ^ m := by
    have : e - p = -(m : ℤ) := by omega
    rw [this, zpow_neg, zpow_natCast, one_div]
  have hpos : (0 : ℚ) < 2 ^ m := by positivity
  rw [hulp]
  have habs := abs_le.1 hB
  have h1 : roundHalfEven (q / (1 / 2 ^ m)) ≤ ((B * 2 ^ m : ℕ) : ℤ) := by
    apply roundHalfEven_le
    push_cast
    rw [div_div_eq_mul_div, div_one]
    exact mul_le_mul_of_nonneg_right habs.2 hpos.le
  have h2 : -((B * 2 ^ m : ℕ) : ℤ) ≤ roundHalfEven (q / (1 / 2 ^ m)) := by
    apply le_roundHalfEven
    push_cast
    rw [div_div_eq_mul_div, div_one]
    have := mul_le_mul_of_nonneg_right habs.1 hpos.le
    linarith
  have h1' : (roundHalfEven (q / (1 / 2 ^ m)) : ℚ) ≤ B * 2 ^ m := by exact_mod_cast h1
  have h2' : -((B : ℚ) * 2 ^ m) ≤ (roundHalfEven (q / (1 / 2 ^ m)) : ℚ) := by exact_mod_cast h2
  rw [abs_le]
  constructor
  · rw [mul_one_div, le_div_iff₀ hpos]; linarith
  · rw [mul_one_div, div_le_iff₀ hpos]; linarith

theorem toFloat_bounds (q r : ℚ) (B : ℕ) (hB : B ≤ 180) (h : toFloat q = some r)
    (hq : -(B : ℚ) ≤ q ∧ q ≤ B) : -(B : ℚ) ≤ r ∧ r ≤ B := by
  unfold toFloat at h
  split_ifs at h
  simp only [Option.some.injEq] at h
  subst h
  have := roundBinary_abs_le 23 (-126) q B 8 (abs_le.2 hq) (by
    have : (B : ℚ) ≤ 180 := by exact_mod_cast hB
    norm_num; linarith) (by norm_num) (by norm_num)
  exact abs_le.1 this

theorem toFloat_isSome_of_bounds (q : ℚ) (hq : -180 ≤ q ∧ q ≤ 180) :
    toFloat q = some (roundBinary 23 (-126) q) := by
  have := roundBinary_abs_le 23 (-126) q 180 8 (abs_le.2 (by simpa using hq)) (by norm_num)
    (by norm_num) (by norm_num)
  unfold toFloat
  rw [if_pos]
  calc |roundBinary 23 (-126) q| ≤ (180 : ℕ) := this
    _ < 2 ^ 128 := by norm_num

theorem toFloat_zero : toFloat 0 = some 0 := by
  simp [toFloat, roundBinary]

theorem roundBinary_double_12_3456789 :
    roundBinary 23 (-126) (3474999680854737 / 281474976710656) = 12945383 / 1048576 := by
  have hlog : Int.log 2 |(3474999680854737 / 281474976710656 : ℚ)| = 3 := by
    have hpos : (0 : ℚ) < |(3474999680854737 / 281474976710656 : ℚ)| := by norm_num
    apply le_antisymm
    · have : Int.log 2 |(3474999680854737 / 281474976710656 : ℚ)| < 4 := by
        rw [← Int.lt_zpow_iff_log_lt (by norm_num) hpos]
        norm_num [abs_of_pos]
      omega
    · rw [← Int.zpow_le_iff_le_log (by norm_num) hpos]
      norm_num [abs_of_pos]
  have hmax : max (3 : ℤ) (-126) - ((23 : ℕ) : ℤ) = -20 := by norm_num
  have hfloor : ⌊(3474999680854737 / 281474976710656 : ℚ) / 2 ^ (-20 : ℤ)⌋
      = 12945382 := by
    rw [Int.floor_eq_iff]
    norm_num
  unfold roundBinary
  rw [if_neg (by norm_num), hlog, hmax]
  unfold roundHalfEven
  rw [hfloor]
  norm_num

/-! ## Helper lemmas on the table -/

/-- The insert either fails and leaves the table alone, or appends one row that carries
the counter as its identifier, the two texts as bound, and the two coordinates as the
`FLOAT` columns store them. -/
theorem Db.insert_cases (params : List JsValue) (db : Db) :
    (∃ e, db.insert params = (.error e, db))
    ∨ (∃ (name address : String) (la lo la' lo' : ℚ),
        params = [.string name, .string address, .number (.fin la), .number (.fin lo)]
        ∧ toFloat la = some la' ∧ toFloat lo = some lo'
        ∧ db.insert params = (.ok db.autoIncrement,
            ⟨db.rows ++ [⟨db.autoIncrement, name, address, la', lo'⟩],
              db.autoIncrement + 1⟩)) := by
  unfold Db.insert
  split
  · rename_i name address la lo
    split_ifs
    · exact Or.inl ⟨_, rfl⟩
    · exact Or.inl ⟨_, rfl⟩
    · split
      · rename_i la' lo' h1 h2
        exact Or.inr ⟨name, address, la, lo, la', lo', rfl, h1, h2, rfl⟩
      · exact Or.inl ⟨_, rfl⟩
  · exact Or.inl ⟨_, rfl⟩

theorem mysqlPool_executeInsert_cases (key : OrderKey) (fault : Option StoreError)
    (params : List JsValue) (db : Db) :
    (∃ e, (mysqlPool key fault).executeInsert params db = (.error e, db))
    ∨ (∃ (name address : String) (la lo la' lo' : ℚ),
        params = [.string name, .string address, .number (.fin la), .number (.fin lo)]
        ∧ toFloat la = some la' ∧ toFloat lo = some lo'
        ∧ (mysqlPool key fault).executeInsert params db = (.ok db.autoIncrement,
            ⟨db.rows ++ [⟨db.autoIncrement, name, address, la', lo'⟩],
              db.autoIncrement + 1⟩)) := by
  cases fault with
  | some e => exact Or.inl ⟨e, rfl⟩
  | none => exact Db.insert_cases params db

theorem orderKey_le_total (x y : Option ℚ) :
    OrderKey.le x y = true ∨ OrderKey.le y x = true := by
  cases x with
  | none => simp [OrderKey.le]
  | some a =>
    cases y with
    | none => simp [OrderKey.le]
    | some b => simpa [OrderKey.le] using le_total a b

theorem orderKey_le_trans (x y z : Option ℚ) (h1 : OrderKey.le x y = true)
    (h2 : OrderKey.le y z = true) : OrderKey.le x z = true := by
  cases x <;> cases y <;> cases z <;> simp_all [OrderKey.le]
  exact le_trans h1 h2

/-- The select never changes the table, and what it returns is the table sorted on the
keys of the engine for the bound parameters: a permutation of all the rows. -/
theorem mysqlPool_executeSelect_cases (key : OrderKey) (fault : Option StoreError)
    (params : List JsValue) (db : Db) :
    ((mysqlPool key fault).executeSelect params db).2 = db
    ∧ ∀ rows, ((mysqlPool key fault).executeSelect params db).1 = .ok rows →
        rows = db.rows.insertionSort
            (fun a b => OrderKey.le (key params a) (key params b) = true)
        ∧ rows.Perm db.rows := by
  cases fault with
  | some e => exact ⟨rfl, fun rows h => by simp [mysqlPool] at h⟩
  | none =>
    refine ⟨rfl, fun rows h => ?_⟩
    have h' : Except.ok (db.rows.insertionSort
        (fun a b => OrderKey.le (key params a) (key params b) = true)) = Except.ok rows := h
    simp only [Except.ok.injEq] at h'
    subst h'
    exact ⟨rfl, List.perm_insertionSort _ _⟩

/-- A request either leaves the table as it is or appends one valid row under the
counter. -/
theorem serve_state (key : OrderKey) (db : Db) (req : Request) :
    (serve key db req).state = db
    ∨ ∃ row : School, row.Valid ∧ row.id = db.autoIncrement
        ∧ (serve key db req).state = ⟨db.rows ++ [row], db.autoIncrement + 1⟩ := by
  cases req with
  | listSchools query fault =>
    left
    show (listSchools (mysqlPool key fault) query db).state = db
    rcases listSchools_cases (mysqlPool key fault) query db with ⟨msg, h⟩ | ⟨_, _, _, _, _, _, _, h⟩
    · rw [h]; rfl
    · rw [h, trySelect_state]; exact (mysqlPool_executeSelect_cases _ _ _ _).1
  | addSchool body fault =>
    show (addSchool (mysqlPool key fault) body db).state = db ∨ ∃ row : School, row.Valid
      ∧ row.id = db.autoIncrement
      ∧ (addSchool (mysqlPool key fault) body db).state = ⟨db.rows ++ [row], db.autoIncrement + 1⟩
    rcases addSchool_cases (mysqlPool key fault) body db with
      ⟨msg, h⟩ | ⟨name, address, lat, lng, hb, hn, ha, hlat, hlng, h⟩
    · left; rw [h]; rfl
    · rw [h, tryInsert_state]
      rcases mysqlPool_executeInsert_cases key fault
          [.string name, .string address, .number lat, .number lng] db with
        ⟨e, he⟩ | ⟨name', address', la, lo, la', lo', hp, hla, hlo, he⟩
      · left; rw [he]
      · right
        simp only [List.cons.injEq, JsValue.string.injEq, JsValue.number.injEq, and_true] at hp
        obtain ⟨rfl, rfl, rfl, rfl⟩ := hp
        refine ⟨⟨db.autoIncrement, name, address, la', lo'⟩, ?_, rfl, by rw [he]⟩
        have h1 : -((90 : ℕ) : ℚ) ≤ la ∧ la ≤ (90 : ℕ) := by
          simp only [JsNum.Outside, not_or, not_lt] at hlat
          exact_mod_cast hlat
        have h2 : -((180 : ℕ) : ℚ) ≤ lo ∧ lo ≤ (180 : ℕ) := by
          simp only [JsNum.Outside, not_or, not_lt] at hlng
          exact_mod_cast hlng
        have b1 := toFloat_bounds la la' 90 (by norm_num) hla h1
        have b2 := toFloat_bounds lo lo' 180 (by norm_num) hlo h2
        refine ⟨?_, ?_, ?_, ?_, hn, ha⟩
        · exact_mod_cast b1.1
        · exact_mod_cast b1.2
        · exact_mod_cast b2.1
        · exact_mod_cast b2.2

theorem runFrom_cons (key : OrderKey) (db : Db) (req : Request) (reqs : List Request) :
    runFrom key db (req :: reqs) = runFrom key (serve key db req).state reqs := rfl

/-- Requests never remove or change a row. -/
theorem runFrom_rows_mono (key : OrderKey) (reqs : List Request) (db : Db) :
    ∀ row ∈ db.rows, row ∈ (runFrom key db reqs).rows := by
  induction reqs generalizing db with
  | nil => exact fun row h => h
  | cons req reqs ih =>
    intro row h
    rw [runFrom_cons]
    apply ih
    rcases serve_state key db req with hs | ⟨r, _, _, hs⟩ <;> rw [hs]
    · exact h
    · exact List.mem_append_left _ h

theorem runFrom_wf (key : OrderKey) (reqs : List Request) (db : Db) (h : db.WF) :
    (runFrom key db reqs).WF := by
  induction reqs generalizing db with
  | nil => exact h
  | cons req reqs ih =>
    rw [runFrom_cons]
    apply ih
    rcases serve_state key db req with hs | ⟨r, _, hid, hs⟩ <;> rw [hs]
    · exact h
    · refine ⟨Nat.succ_pos _, fun row hrow => ?_⟩
      simp only [List.mem_append, List.mem_singleton] at hrow
      rcases hrow with hrow | rfl
      · exact Nat.lt_succ_of_lt (h.2 row hrow)
      · simp [hid]

theorem runFrom_valid (key : OrderKey) (reqs : List Request) (db : Db)
    (h : ∀ row ∈ db.rows, row.Valid) :
    ∀ row ∈ (runFrom key db reqs).rows, row.Valid := by
  induction reqs generalizing db with
  | nil => exact h
  | cons req reqs ih =>
    rw [runFrom_cons]
    apply ih
    rcases serve_state key db req with hs | ⟨r, hr, _, hs⟩ <;> rw [hs]
    · exact h
    · intro row hrow
      simp only [List.mem_append, List.mem_singleton] at hrow
      rcases hrow with hrow | rfl
      · exact h row hrow
      · exact hr

theorem run_wf (key : OrderKey) (reqs : List Request) : (run key reqs).WF :=
  runFrom_wf key reqs _ ⟨Nat.one_pos, fun _ h => by simp [initializeDb] at h⟩

/-! ## Helper lemmas on `parseFloat` and on the select -/

theorem parseFloat_empty : parseFloat "" = .nan := by decide

theorem toDouble_zero : toDouble 0 = .fin 0 := by
  have h : ¬ ((2 : ℚ) ^ 1024 ≤ 0) := not_le.2 (by positivity)
  simp [toDouble, roundBinary, h]

theorem parseFloat_zero : parseFloat "0" = .fin 0 := by
  have h : strUnsignedDecimalLiteral ['0'] = some (some 0) := by
    simp [strUnsignedDecimalLiteral, isDecimalDigit, digitsValue, exponentPart]
  have h2 : "0".toList.dropWhile isStrWhiteSpaceChar = ['0'] := by decide
  unfold parseFloat
  rw [h2]
  simp [h, toDouble_zero]

theorem not_outside_iff (lo hi : ℚ) (n : JsNum) :
    ¬ JsNum.Outside lo hi n ↔ n = .nan ∨ JsNum.Within lo hi n := by
  cases n <;> simp [JsNum.Outside, JsNum.Within]

/-- What `GET /listSchools` answers, with the backend up, when neither coordinate parses
to `NaN`: the table sorted on the keys of the engine for `[lat, lng, lat]`. -/
theorem listSchools_accepted (key : OrderKey) (db : Db) (latitude longitude : String)
    (hlat : parseFloat latitude ≠ .nan) (hlng : parseFloat longitude ≠ .nan) :
    listSchools (mysqlPool key none) ⟨some latitude, some longitude⟩ db
      = ⟨⟨200, .schools (db.rows.insertionSort (fun a b => OrderKey.le
            (key [.number (parseFloat latitude), .number (parseFloat longitude),
              .number (parseFloat latitude)] a)
            (key [.number (parseFloat latitude), .number (parseFloat longitude),
              .number (parseFloat latitude)] b) = true))⟩, db,
          [.selectByDistance [.number (parseFloat latitude), .number (parseFloat longitude),
            .number (parseFloat latitude)]]⟩ := by
  have e1 : latitude ≠ "" := fun h => hlat (h ▸ parseFloat_empty)
  have e2 : longitude ≠ "" := fun h => hlng (h ▸ parseFloat_empty)
  have n1 : (parseFloat latitude).isNaN = false := by
    cases hx : parseFloat latitude <;> simp_all [JsNum.isNaN]
  have n2 : (parseFloat longitude).isNaN = false := by
    cases hx : parseFloat longitude <;> simp_all [JsNum.isNaN]
  simp [listSchools, Query.truthy, e1, e2, n1, n2]
  rfl

theorem trySelect_response_ok {σ : Type} (pool : Pool σ) (params : List JsValue) (s : σ)
    (rows : List School) (h : (trySelect pool params s).response = ⟨200, .schools rows⟩) :
    (pool.executeSelect params s).1 = .ok rows := by
  rcases hx : pool.executeSelect params s with ⟨r, s'⟩
  cases r with
  | error e => simp [trySelect, hx] at h
  | ok rs => simpa [trySelect, hx] using h

/-- With the backend up, a body that passes the checks, whose texts fit their columns, is
inserted under the counter (as long as the counter has not run out). -/
theorem addSchool_accepted (key : OrderKey) (db : Db) (name address : String) (lat lng : ℚ)
    (hn : name ≠ "") (ha : address ≠ "") (hn' : name.length ≤ 255)
    (ha' : address.length ≤ 255) (hlat : -90 ≤ lat ∧ lat ≤ 90)
    (hlng : -180 ≤ lng ∧ lng ≤ 180) (hc : db.autoIncrement ≤ 2147483647) :
    addSchool (mysqlPool key none)
        ⟨.string name, .string address, .number (.fin lat), .number (.fin lng)⟩ db
      = ⟨⟨200, .added "School added successfully" db.autoIncrement⟩,
          ⟨db.rows ++ [⟨db.autoIncrement, name, address, roundBinary 23 (-126) lat,
            roundBinary 23 (-126) lng⟩], db.autoIncrement + 1⟩,
          [.insertSchool
            [.string name, .string address, .number (.fin lat), .number (.fin lng)]]⟩ := by
  have hla : ¬ ((JsNum.fin lat).lt (.fin (-90)) || (JsNum.fin lat).gt (.fin 90)) = true := by
    simp [JsNum.lt, JsNum.gt, hlat.1, hlat.2]
  have hlo : ¬ ((JsNum.fin lng).lt (.fin (-180)) || (JsNum.fin lng).gt (.fin 180)) = true := by
    simp [JsNum.lt, JsNum.gt, hlng.1, hlng.2]
  have f1 := toFloat_isSome_of_bounds lat ⟨by linarith [hlat.1], by linarith [hlat.2]⟩
  have f2 := toFloat_isSome_of_bounds lng hlng
  rw [addSchool_of_typed _ _ name address _ _ hn ha, if_neg hla, if_neg hlo]
  simp [tryInsert, mysqlPool, Db.insert, f1, f2, not_lt.2 hn', not_lt.2 ha', not_lt.2 hc]

/-- Whenever `GET /listSchools` answers with rows, both coordinates were supplied and
neither parsed to `NaN`, the select was executed once with the parameters
`[lat, lng, lat]`, and the rows are the rows the store returned, in its order: every row
of the table exactly once, ascending on the keys the engine computed. -/
theorem listSchools_returns_all_rows (key : OrderKey) (fault : Option StoreError)
    (db : Db) (query : Query) (rows : List School)
    (h : (listSchools (mysqlPool key fault) query db).response = ⟨200, .schools rows⟩) :
    ∃ latitude longitude : String,
      query = ⟨some latitude, some longitude⟩
      ∧ (listSchools (mysqlPool key fault) query db).executed
        = [.selectByDistance [.number (parseFloat latitude), .number (parseFloat longitude),
            .number (parseFloat latitude)]]
      ∧ rows.Perm db.rows
      ∧ rows.Sorted (fun a b => OrderKey.le
          (key [.number (parseFloat latitude), .number (parseFloat longitude),
            .number (parseFloat latitude)] a)
          (key [.number (parseFloat latitude), .number (parseFloat longitude),
            .number (parseFloat latitude)] b) = true) := by
  rcases listSchools_cases (mysqlPool key fault) query db with
    ⟨msg, hm⟩ | ⟨latitude, longitude, hq, _, _, _, _, hm⟩
  · rw [hm] at h; simp [badRequest] at h
  rw [hm] at h
  obtain ⟨hrows, hperm⟩ := (mysqlPool_executeSelect_cases key fault _ db).2 rows
    (trySelect_response_ok _ _ _ rows h)
  refine ⟨latitude, longitude, hq, by rw [hm, trySelect_executed], hperm, ?_⟩
  rw [hrows]
  haveI : IsTotal School (fun a b => OrderKey.le
      (key [.number (parseFloat latitude), .number (parseFloat longitude),
        .number (parseFloat latitude)] a)
      (key [.number (parseFloat latitude), .number (parseFloat longitude),
        .number (parseFloat latitude)] b) = true) :=
    ⟨fun a b => orderKey_le_total _ _⟩
  haveI : IsTrans School (fun a b => OrderKey.le
      (key [.number (parseFloat latitude), .number (parseFloat longitude),
        .number (parseFloat latitude)] a)
      (key [.number (parseFloat latitude), .number (parseFloat longitude),
        .number (parseFloat latitude)] b) = true) :=
    ⟨fun a b c => orderKey_le_trans _ _ _⟩
  exact List.sorted_insertionSort _ _

theorem roundBinary_zero (p : ℕ) (emin : ℤ) : roundBinary p emin 0 = 0 := by
  simp [roundBinary]

/-! ## C1: valid input to `POST /addSchool` -/

/-- C1, as stated, fails: a body whose name is the empty text (address text, latitude 0,
longitude 0, all in range) is answered 400 and no insert is executed. -/
theorem addSchool_empty_name_rejected :
    (addSchool (mysqlPool nullKeys none)
        ⟨.string "", .string "1 Main St", .number (.fin 0), .number (.fin 0)⟩
        (initializeDb none)).response
      = ⟨400, .error "All fields (name, address, latitude, longitude) are required"⟩
    ∧ (addSchool (mysqlPool nullKeys none)
        ⟨.string "", .string "1 Main St", .number (.fin 0), .number (.fin 0)⟩
        (initializeDb none)).executed = [] := by
  constructor <;> rfl

/-- C1, amended: for every table reached from the empty one and every body with non-empty
text name and address, a latitude in [-90, 90] and a longitude in [-180, 180], the handler
executes the insert exactly once, with the four values as submitted; when the store
accepts it, the answer is 200 with `schoolId` the identifier the store generated, which is
positive and carried by no earlier row; and the store does accept it when the backend is
up, the texts fit their columns and the counter has not run out. -/
theorem addSchool_valid_input (key : OrderKey) (reqs : List Request) (fault : Option StoreError)
    (name address : String) (lat lng : ℚ) (hn : name ≠ "") (ha : address ≠ "")
    (hlat : -90 ≤ lat ∧ lat ≤ 90) (hlng : -180 ≤ lng ∧ lng ≤ 180) :
    (addSchool (mysqlPool key fault)
        ⟨.string name, .string address, .number (.fin lat), .number (.fin lng)⟩
        (run key reqs)).executed
      = [.insertSchool [.string name, .string address, .number (.fin lat), .number (.fin lng)]]
    ∧ (∀ id : ℕ,
        ((mysqlPool key fault).executeInsert
          [.string name, .string address, .number (.fin lat), .number (.fin lng)]
          (run key reqs)).1 = .ok id →
        (addSchool (mysqlPool key fault)
            ⟨.string name, .string address, .number (.fin lat), .number (.fin lng)⟩
            (run key reqs)).response = ⟨200, .added "School added successfully" id⟩
          ∧ 0 < id ∧ ∀ row ∈ (run key reqs).rows, row.id ≠ id)
    ∧ (fault = none → name.length ≤ 255 → address.length ≤ 255 →
        (run key reqs).autoIncrement ≤ 2147483647 →
        ∃ id : ℕ, ((mysqlPool key fault).executeInsert
          [.string name, .string address, .number (.fin lat), .number (.fin lng)]
          (run key reqs)).1 = .ok id) := by
  have hla : ¬ ((JsNum.fin lat).lt (.fin (-90)) || (JsNum.fin lat).gt (.fin 90)) = true := by
    simp [JsNum.lt, JsNum.gt, hlat.1, hlat.2]
  have hlo : ¬ ((JsNum.fin lng).lt (.fin (-180)) || (JsNum.fin lng).gt (.fin 180)) = true := by
    simp [JsNum.lt, JsNum.gt, hlng.1, hlng.2]
  rw [addSchool_of_typed _ _ name address _ _ hn ha, if_neg hla, if_neg hlo]
  refine ⟨tryInsert_executed _ _ _, fun id hid => ⟨tryInsert_ok _ _ _ id hid, ?_⟩, ?_⟩
  · have hwf := run_wf key reqs
    rcases mysqlPool_executeInsert_cases key fault
        [.string name, .string address, .number (.fin lat), .number (.fin lng)] (run key reqs) with
      ⟨e, he⟩ | ⟨_, _, _, _, _, _, _, _, _, he⟩
    · rw [he] at hid; cases hid
    · rw [he] at hid
      simp only [Except.ok.injEq] at hid
      subst hid
      exact ⟨hwf.1, fun row hrow => (hwf.2 row hrow).ne⟩
  · rintro rfl h1 h2 h3
    refine ⟨(run key reqs).autoIncrement, ?_⟩
    show ((run key reqs).insert _).1 = _
    have f1 := toFloat_isSome_of_bounds lat ⟨by linarith [hlat.1], by linarith [hlat.2]⟩
    have f2 := toFloat_isSome_of_bounds lng hlng
    simp [Db.insert, f1, f2, not_lt.2 h1, not_lt.2 h2, not_lt.2 h3]

/-- C1 at name `Alpha`, latitude 0 and longitude 0 on the empty table: accepted with id 1. -/
theorem addSchool_valid_input_witness :
    (addSchool (mysqlPool nullKeys none)
        ⟨.string "Alpha", .string "1 Main St", .number (.fin 0), .number (.fin 0)⟩
        (run nullKeys [])).response = ⟨200, .added "School added successfully" 1⟩ :=
  ((addSchool_valid_input nullKeys [] none "Alpha" "1 Main St" 0 0 (by decide) (by decide)
    (by norm_num) (by norm_num)).2.1 1
      (by simp [mysqlPool, Db.insert, toFloat_zero, run, runFrom, initializeDb,
        show ¬ (255 < "Alpha".length ∨ 255 < "1 Main St".length) by decide])).1

/-! ## C2: a missing field -/

/-- C2: for every body in which at least one of name, address, latitude, longitude is
missing (`undefined`), the handler answers 400 with an error body and executes no storage
statement: the store is left as it was. -/
theorem addSchool_missing_no_storage {σ : Type} (pool : Pool σ) (body : Body) (s : σ)
    (h : body.name = .undefined ∨ body.address = .undefined ∨ body.latitude = .undefined
      ∨ body.longitude = .undefined) :
    (addSchool pool body s).response.status = 400
      ∧ (∃ msg, (addSchool pool body s).response.body = .error msg)
      ∧ (addSchool pool body s).executed = []
      ∧ (addSchool pool body s).state = s := by
  obtain ⟨n, a, la, lo⟩ := body
  simp only at h
  have : addSchool pool ⟨n, a, la, lo⟩ s
      = badRequest s "All fields (name, address, latitude, longitude) are required" := by
    rcases h with h | h | h | h <;> subst h <;> simp [addSchool, JsValue.truthy]
  rw [this]
  exact ⟨rfl, ⟨_, rfl⟩, rfl, rfl⟩

/-- C2 at a body without latitude. -/
theorem addSchool_missing_no_storage_witness :
    (addSchool (mysqlPool nullKeys none)
        ⟨.string "Alpha", .string "1 Main St", .undefined, .number (.fin 0)⟩
        (initializeDb none)).response.status = 400
      ∧ (addSchool (mysqlPool nullKeys none)
        ⟨.string "Alpha", .string "1 Main St", .undefined, .number (.fin 0)⟩
        (initializeDb none)).executed = [] :=
  have h := addSchool_missing_no_storage (mysqlPool nullKeys none)
    ⟨.string "Alpha", .string "1 Main St", .undefined, .number (.fin 0)⟩ (initializeDb none)
    (Or.inr (Or.inr (Or.inl rfl)))
  ⟨h.1, h.2.2.1⟩

/-! ## C3: coordinates out of range -/

/-- C3, as stated, fails: with the empty text as name (address text, latitude 95,
longitude 0), the answer is the missing-field message, not the latitude range message. -/
theorem addSchool_empty_name_out_of_range :
    (addSchool (mysqlPool nullKeys none)
        ⟨.string "", .string "1 Main St", .number (.fin 95), .number (.fin 0)⟩
        (initializeDb none)).response
      = ⟨400, .error "All fields (name, address, latitude, longitude) are required"⟩
    ∧ (addSchool (mysqlPool nullKeys none)
        ⟨.string "", .string "1 Main St", .number (.fin 95), .number (.fin 0)⟩
        (initializeDb none)).response
      ≠ ⟨400, .error "Latitude must be between -90 and 90"⟩ := by
  constructor
  · rfl
  · decide

/-- C3, amended: for every body whose name and address are non-empty text and whose
latitude and longitude are numbers, a latitude below -90 or above 90 is answered 400 with
the latitude message; otherwise a longitude below -180 or above 180 is answered 400 with
the longitude message; in both cases nothing is executed.  A latitude in [-90, 90] with a
longitude in [-180, 180] is not rejected (the insert is executed), and the boundary values
-90, 90, -180 and 180 are in these intervals. -/
theorem addSchool_out_of_range {σ : Type} (pool : Pool σ) (s : σ) (name address : String)
    (lat lng : JsNum) (hn : name ≠ "") (ha : address ≠ "") :
    (JsNum.Outside (-90) 90 lat →
        addSchool pool ⟨.string name, .string address, .number lat, .number lng⟩ s
          = ⟨⟨400, .error "Latitude must be between -90 and 90"⟩, s, []⟩)
    ∧ (¬ JsNum.Outside (-90) 90 lat → JsNum.Outside (-180) 180 lng →
        addSchool pool ⟨.string name, .string address, .number lat, .number lng⟩ s
          = ⟨⟨400, .error "Longitude must be between -180 and 180"⟩, s, []⟩)
    ∧ (JsNum.Within (-90) 90 lat → JsNum.Within (-180) 180 lng →
        (addSchool pool ⟨.string name, .string address, .number lat, .number lng⟩ s).executed
            = [.insertSchool [.string name, .string address, .number lat, .number lng]]
          ∧ (addSchool pool ⟨.string name, .string address, .number lat, .number lng⟩
              s).response.status ≠ 400)
    ∧ (JsNum.Within (-90) 90 (.fin (-90)) ∧ JsNum.Within (-90) 90 (.fin 90)
        ∧ JsNum.Within (-180) 180 (.fin (-180)) ∧ JsNum.Within (-180) 180 (.fin 180)) := by
  rw [addSchool_of_typed pool s name address lat lng hn ha]
  refine ⟨fun h => ?_, fun h1 h2 => ?_, fun h1 h2 => ?_, ?_⟩
  · rw [if_pos ((outside_iff _ _ _).1 h)]; rfl
  · rw [if_neg (fun h => h1 ((outside_iff _ _ _).2 h)), if_pos ((outside_iff _ _ _).1 h2)]; rfl
  · have e1 : ¬ (lat.lt (.fin (-90)) || lat.gt (.fin 90)) = true := fun h =>
      (not_outside_iff _ _ _).2 (Or.inr h1) ((outside_iff _ _ _).2 h)
    have e2 : ¬ (lng.lt (.fin (-180)) || lng.gt (.fin 180)) = true := fun h =>
      (not_outside_iff _ _ _).2 (Or.inr h2) ((outside_iff _ _ _).2 h)
    rw [if_neg e1, if_neg e2]
    refine ⟨tryInsert_executed _ _ _, ?_⟩
    unfold tryInsert
    split <;> simp
  · simp [JsNum.Within]

/-- C3 at 95 and at -181 for the two messages, and at the corner (90, -180). -/
theorem addSchool_out_of_range_witness :
    addSchool (mysqlPool nullKeys none)
        ⟨.string "Alpha", .string "1 Main St", .number (.fin 95), .number (.fin 200)⟩
        (initializeDb none)
      = ⟨⟨400, .error "Latitude must be between -90 and 90"⟩, initializeDb none, []⟩
    ∧ addSchool (mysqlPool nullKeys none)
        ⟨.string "Alpha", .string "1 Main St", .number (.fin 0), .number (.fin (-181))⟩
        (initializeDb none)
      = ⟨⟨400, .error "Longitude must be between -180 and 180"⟩, initializeDb none, []⟩
    ∧ (addSchool (mysqlPool nullKeys none)
        ⟨.string "Alpha", .string "1 Main St", .number (.fin 90), .number (.fin (-180))⟩
        (initializeDb none)).executed
      = [.insertSchool [.string "Alpha", .string "1 Main St", .number (.fin 90),
          .number (.fin (-180))]] :=
  ⟨(addSchool_out_of_range (mysqlPool nullKeys none) (initializeDb none) "Alpha" "1 Main St"
      (.fin 95) (.fin 200) (by decide) (by decide)).1 (by simp [JsNum.Outside]; norm_num),
    (addSchool_out_of_range (mysqlPool nullKeys none) (initializeDb none) "Alpha" "1 Main St"
      (.fin 0) (.fin (-181)) (by decide) (by decide)).2.1
        (by simp [JsNum.Outside]) (by simp [JsNum.Outside]; norm_num),
    ((addSchool_out_of_range (mysqlPool nullKeys none) (initializeDb none) "Alpha" "1 Main St"
      (.fin 90) (.fin (-180)) (by decide) (by decide)).2.2.1
        (by simp [JsNum.Within]) (by simp [JsNum.Within])).1⟩

/-! ## C5: unparsable query coordinates -/

/-- C5, as stated, fails: `latitude=Infinity` does not parse as a finite number
(`parseFloat` gives `Infinity`), yet with `longitude=0` the handler executes the select,
and the answer is not a 400. -/
theorem listSchools_infinity_reaches_store :
    parseFloat "Infinity" = .posInf
    ∧ (listSchools (mysqlPool nullKeys none) ⟨some "Infinity", some "0"⟩ (initializeDb none)).executed
      = [.selectByDistance [.number .posInf, .number (.fin 0), .number .posInf]]
    ∧ (listSchools (mysqlPool nullKeys none) ⟨some "Infinity", some "0"⟩
        (initializeDb none)).response.status ≠ 400 := by
  have h1 : parseFloat "Infinity" = .posInf := by decide
  have h : listSchools (mysqlPool nullKeys none) ⟨some "Infinity", some "0"⟩ (initializeDb none)
      = trySelect (mysqlPool nullKeys none) [.number .posInf, .number (.fin 0), .number .posInf]
          (initializeDb none) := by
    simp [listSchools, Query.truthy, h1, parseFloat_zero, JsNum.isNaN]
  refine ⟨h1, ?_, ?_⟩
  · rw [h, trySelect_executed]
  · rw [h]
    unfold trySelect
    split <;> simp

/-- C5, amended: for every request in which both latitude and longitude are supplied, if
at least one of them parses to `NaN` (it has no numeric prefix, as `abc`), the handler
answers 400 with an error body and does not query the store; if neither does, the select
is executed with the parsed numbers, finite or not. -/
theorem listSchools_nan_rejected {σ : Type} (pool : Pool σ) (s : σ)
    (latitude longitude : String) :
    ((parseFloat latitude = .nan ∨ parseFloat longitude = .nan) →
      (listSchools pool ⟨some latitude, some longitude⟩ s).response.status = 400
        ∧ (∃ msg, (listSchools pool ⟨some latitude, some longitude⟩ s).response.body
            = .error msg)
        ∧ (listSchools pool ⟨some latitude, some longitude⟩ s).executed = []
        ∧ (listSchools pool ⟨some latitude, some longitude⟩ s).state = s)
    ∧ (parseFloat latitude ≠ .nan → parseFloat longitude ≠ .nan →
      (listSchools pool ⟨some latitude, some longitude⟩ s).executed
        = [.selectByDistance [.number (parseFloat latitude), .number (parseFloat longitude),
            .number (parseFloat latitude)]]) := by
  refine ⟨fun h => ?_, fun h1 h2 => ?_⟩
  · rcases listSchools_cases pool ⟨some latitude, some longitude⟩ s with
      ⟨msg, hm⟩ | ⟨la, lo, hq, _, _, h1, h2, _⟩
    · rw [hm]; exact ⟨rfl, ⟨_, rfl⟩, rfl, rfl⟩
    · simp only [Query.mk.injEq, Option.some.injEq] at hq
      obtain ⟨rfl, rfl⟩ := hq
      rcases h with h | h
      · exact absurd h h1
      · exact absurd h h2
  · have e1 : latitude ≠ "" := fun h => h1 (h ▸ parseFloat_empty)
    have e2 : longitude ≠ "" := fun h => h2 (h ▸ parseFloat_empty)
    have n1 : (parseFloat latitude).isNaN = false := by
      cases hx : parseFloat latitude <;> simp_all [JsNum.isNaN]
    have n2 : (parseFloat longitude).isNaN = false := by
      cases hx : parseFloat longitude <;> simp_all [JsNum.isNaN]
    simp [listSchools, Query.truthy, e1, e2, n1, n2, trySelect_executed]

/-- C5 at `latitude=abc`, `longitude=10`. -/
theorem listSchools_nan_rejected_witness :
    (listSchools (mysqlPool nullKeys none) ⟨some "abc", some "10"⟩ (initializeDb none)).response.status
      = 400
    ∧ (listSchools (mysqlPool nullKeys none) ⟨some "abc", some "10"⟩ (initializeDb none)).executed
      = [] :=
  have h := (listSchools_nan_rejected (mysqlPool nullKeys none) (initializeDb none) "abc" "10").1
    (Or.inl (by decide))
  ⟨h.1, h.2.2.1⟩

/-! ## C6: storage failures -/

/-- C6: whenever the statement of `POST /addSchool` or of `GET /listSchools` fails, with
whatever error value, the answer is exactly 500 with `{error: 'Internal Server Error'}`,
which does not depend on the error; and no run of a handler executes more than one
statement (nothing is retried). -/
theorem storage_failure_generic {σ : Type} (pool : Pool σ) (s : σ) :
    (∀ (body : Body) (params : List JsValue) (e : StoreError),
        (addSchool pool body s).executed = [.insertSchool params] →
        (pool.executeInsert params s).1 = .error e →
        (addSchool pool body s).response = ⟨500, .error "Internal Server Error"⟩)
    ∧ (∀ (query : Query) (params : List JsValue) (e : StoreError),
        (listSchools pool query s).executed = [.selectByDistance params] →
        (pool.executeSelect params s).1 = .error e →
        (listSchools pool query s).response = ⟨500, .error "Internal Server Error"⟩)
    ∧ (∀ body : Body, (addSchool pool body s).executed.length ≤ 1)
    ∧ (∀ query : Query, (listSchools pool query s).executed.length ≤ 1) := by
  refine ⟨fun body params e h1 h2 => ?_, fun query params e h1 h2 => ?_, fun body => ?_,
    fun query => ?_⟩
  · rcases addSchool_cases pool body s with ⟨msg, h⟩ | ⟨_, _, _, _, _, _, _, _, _, h⟩
    · rw [h] at h1; cases h1
    · rw [h] at h1 ⊢
      rw [tryInsert_executed] at h1
      simp only [List.cons.injEq, Stmt.insertSchool.injEq, and_true] at h1
      rw [h1]
      exact tryInsert_error _ _ _ e h2
  · rcases listSchools_cases pool query s with ⟨msg, h⟩ | ⟨_, _, _, _, _, _, _, h⟩
    · rw [h] at h1; cases h1
    · rw [h] at h1 ⊢
      rw [trySelect_executed] at h1
      simp only [List.cons.injEq, Stmt.selectByDistance.injEq, and_true] at h1
      rw [h1]
      exact trySelect_error _ _ _ e h2
  · rcases addSchool_cases pool body s with ⟨msg, h⟩ | ⟨_, _, _, _, _, _, _, _, _, h⟩
    · rw [h]; exact Nat.zero_le _
    · rw [h, tryInsert_executed]; exact le_refl _
  · rcases listSchools_cases pool query s with ⟨msg, h⟩ | ⟨_, _, _, _, _, _, _, h⟩
    · rw [h]; exact Nat.zero_le _
    · rw [h, trySelect_executed]; exact le_refl _

/-- C6 with a connection reset on the insert and a timeout on the select. -/
theorem storage_failure_generic_witness :
    (addSchool (mysqlPool nullKeys (some "ECONNRESET"))
        ⟨.string "Alpha", .string "1 Main St", .number (.fin 0), .number (.fin 0)⟩
        (initializeDb none)).response = ⟨500, .error "Internal Server Error"⟩
    ∧ (listSchools (mysqlPool nullKeys (some "ETIMEDOUT")) ⟨some "0", some "0"⟩
        (initializeDb none)).response = ⟨500, .error "Internal Server Error"⟩ :=
  ⟨(storage_failure_generic (mysqlPool nullKeys (some "ECONNRESET")) (initializeDb none)).1
      ⟨.string "Alpha", .string "1 Main St", .number (.fin 0), .number (.fin 0)⟩
      [.string "Alpha", .string "1 Main St", .number (.fin 0), .number (.fin 0)] "ECONNRESET"
      rfl rfl,
    (storage_failure_generic (mysqlPool nullKeys (some "ETIMEDOUT")) (initializeDb none)).2.1
      ⟨some "0", some "0"⟩ [.number (.fin 0), .number (.fin 0), .number (.fin 0)] "ETIMEDOUT"
      (by simp [listSchools, Query.truthy, parseFloat_zero, JsNum.isNaN, trySelect_executed])
      rfl⟩

/-! ## C7: round trip -/

/-- C7, as stated, fails: the school submitted with latitude 12.3456789 (the double of that
literal) into the empty table is accepted with id 1, and the list that follows returns it
with latitude 12.34567928314209, the nearest single-precision number, which is not the
submitted value. -/
theorem round_trip_latitude_changed :
    (addSchool (mysqlPool nullKeys none)
        ⟨.string "Alpha", .string "1 Main St",
          .number (.fin (3474999680854737 / 281474976710656)), .number (.fin 0)⟩
        (run nullKeys [])).response = ⟨200, .added "School added successfully" 1⟩
    ∧ (listSchools (mysqlPool nullKeys none) ⟨some "0", some "0"⟩
        (addSchool (mysqlPool nullKeys none)
          ⟨.string "Alpha", .string "1 Main St",
            .number (.fin (3474999680854737 / 281474976710656)), .number (.fin 0)⟩
          (run nullKeys [])).state).response
      = ⟨200, .schools [⟨1, "Alpha", "1 Main St", 12945383 / 1048576, 0⟩]⟩
    ∧ (12945383 / 1048576 : ℚ) ≠ 3474999680854737 / 281474976710656 := by
  have hadd := addSchool_accepted nullKeys (run nullKeys []) "Alpha" "1 Main St"
    (3474999680854737 / 281474976710656) 0 (by decide) (by decide) (by decide) (by decide)
    (by norm_num) (by norm_num) (by decide)
  rw [roundBinary_double_12_3456789, roundBinary_zero] at hadd
  refine ⟨by rw [hadd]; rfl, ?_, by norm_num⟩
  rw [hadd, listSchools_accepted nullKeys _ "0" "0" (by rw [parseFloat_zero]; simp)
    (by rw [parseFloat_zero]; simp)]
  rfl

/-- C7, amended: for every school accepted by `POST /addSchool`, every later
`GET /listSchools` that succeeds, whatever happened in between and whatever the reference
point, returns a row with the identifier the insert returned, whose name and address are
the submitted texts and whose latitude and longitude are the submitted numbers as the
`FLOAT` columns store them (rounded to single precision). -/
theorem round_trip_up_to_float (key : OrderKey) (reqs later : List Request) (fault fault' : Option StoreError)
    (body : Body) (query : Query) (message : String) (id : ℕ) (rows : List School)
    (hadd : (addSchool (mysqlPool key fault) body (run key reqs)).response
      = ⟨200, .added message id⟩)
    (hlist : (listSchools (mysqlPool key fault') query
        (runFrom key (addSchool (mysqlPool key fault) body (run key reqs)).state later)).response
      = ⟨200, .schools rows⟩) :
    ∃ row ∈ rows, row.id = id
      ∧ body.name = .string row.name ∧ body.address = .string row.address
      ∧ ∃ lat lng : ℚ, body.latitude = .number (.fin lat) ∧ body.longitude = .number (.fin lng)
          ∧ toFloat lat = some row.latitude ∧ toFloat lng = some row.longitude := by
  -- the insert
  rcases addSchool_cases (mysqlPool key fault) body (run key reqs) with
    ⟨msg, h⟩ | ⟨name, address, lat, lng, hb, hn, ha, _, _, h⟩
  · rw [h] at hadd; simp [badRequest] at hadd
  rcases mysqlPool_executeInsert_cases key fault
      [.string name, .string address, .number lat, .number lng] (run key reqs) with
    ⟨e, he⟩ | ⟨name', address', la, lo, la', lo', hp, hla, hlo, he⟩
  · rw [h, tryInsert_error _ _ _ e (by rw [he])] at hadd
    simp at hadd
  simp only [List.cons.injEq, JsValue.string.injEq, JsValue.number.injEq, and_true] at hp
  obtain ⟨rfl, rfl, rfl, rfl⟩ := hp
  have hid : id = (run key reqs).autoIncrement := by
    rw [h, tryInsert_ok _ _ _ _ (by rw [he])] at hadd
    simp only [Response.mk.injEq, ResBody.added.injEq, true_and] at hadd
    exact hadd.2.symm
  have hstate : (addSchool (mysqlPool key fault) body (run key reqs)).state
      = ⟨(run key reqs).rows ++ [⟨(run key reqs).autoIncrement, name, address, la', lo'⟩],
          (run key reqs).autoIncrement + 1⟩ := by
    rw [h, tryInsert_state, he]
  have hmem : (⟨(run key reqs).autoIncrement, name, address, la', lo'⟩ : School)
      ∈ (runFrom key (addSchool (mysqlPool key fault) body (run key reqs)).state later).rows := by
    apply runFrom_rows_mono key
    rw [hstate]
    simp
  -- the select
  rcases listSchools_cases (mysqlPool key fault') query
      (runFrom key (addSchool (mysqlPool key fault) body (run key reqs)).state later) with
    ⟨msg, h'⟩ | ⟨_, _, _, _, _, _, _, h'⟩
  · rw [h'] at hlist; simp [badRequest] at hlist
  rw [h'] at hlist
  have hsel := (mysqlPool_executeSelect_cases key fault' _
    (runFrom key (addSchool (mysqlPool key fault) body (run key reqs)).state later)).2 rows
      (trySelect_response_ok _ _ _ rows hlist)
  obtain ⟨hrows, _⟩ := hsel
  refine ⟨⟨(run key reqs).autoIncrement, name, address, la', lo'⟩, ?_, hid.symm, ?_, ?_,
    la, lo, ?_, ?_, hla, hlo⟩
  · rw [hrows]; exact (List.mem_insertionSort _).2 hmem
  all_goals rw [hb]

/-- C7 at a school at (0, 0) inserted into the empty table and listed right after. -/
theorem round_trip_up_to_float_witness :
    ∃ row ∈ [(⟨1, "Alpha", "1 Main St", 0, 0⟩ : School)], row.id = 1
      ∧ JsValue.string "Alpha" = .string row.name
      ∧ JsValue.string "1 Main St" = .string row.address
      ∧ ∃ lat lng : ℚ, JsValue.number (.fin 0) = .number (.fin lat)
          ∧ JsValue.number (.fin 0) = .number (.fin lng)
          ∧ toFloat lat = some row.latitude ∧ toFloat lng = some row.longitude :=
  round_trip_up_to_float nullKeys [] [] none none
    ⟨.string "Alpha", .string "1 Main St", .number (.fin 0), .number (.fin 0)⟩
    ⟨some "0", some "0"⟩ "School added successfully" 1 [⟨1, "Alpha", "1 Main St", 0, 0⟩]
    (by
      rw [addSchool_accepted nullKeys (run nullKeys []) "Alpha" "1 Main St" 0 0 (by decide)
        (by decide) (by decide) (by decide) (by norm_num) (by norm_num) (by decide)]
      rfl)
    (by
      rw [addSchool_accepted nullKeys (run nullKeys []) "Alpha" "1 Main St" 0 0 (by decide)
        (by decide) (by decide) (by decide) (by norm_num) (by norm_num) (by decide),
        listSchools_accepted nullKeys _ "0" "0" (by rw [parseFloat_zero]; simp)
          (by rw [parseFloat_zero]; simp), roundBinary_zero]
      rfl)

/-! ## C8: the data-model invariant -/

/-- C8: in every state reached from the empty table by any sequence of requests, every
stored school has latitude in [-90, 90], longitude in [-180, 180] and non-empty name and
address; and for every body a request can carry, whatever numbers its latitude and
longitude are, every parameter tuple the handler hands to the insert is the submitted one,
with a non-empty text name and address, a latitude in [-90, 90] and a longitude in
[-180, 180]. -/
theorem stored_schools_valid (key : OrderKey) :
    (∀ reqs : List Request, ∀ row ∈ (run key reqs).rows, row.Valid)
    ∧ (∀ (σ : Type) (pool : Pool σ) (body : Body) (s : σ) (params : List JsValue),
        body.Receivable →
        Stmt.insertSchool params ∈ (addSchool pool body s).executed →
        ∃ (name address : String) (lat lng : JsNum),
          params = [.string name, .string address, .number lat, .number lng]
          ∧ body = ⟨.string name, .string address, .number lat, .number lng⟩
          ∧ name ≠ "" ∧ address ≠ ""
          ∧ lat.Within (-90) 90 ∧ lng.Within (-180) 180) := by
  refine ⟨fun reqs => runFrom_valid key reqs _ (fun _ h => by simp [initializeDb] at h), ?_⟩
  intro σ pool body s params hrec h
  rcases addSchool_cases pool body s with
    ⟨msg, hm⟩ | ⟨name, address, lat, lng, hb, hn, ha, hlat, hlng, hm⟩
  · rw [hm] at h; simp [badRequest] at h
  · rw [hm, tryInsert_executed] at h
    simp only [List.mem_singleton, Stmt.insertSchool.injEq] at h
    subst hb
    obtain ⟨_, _, h3, h4⟩ := hrec
    refine ⟨name, address, lat, lng, h, rfl, hn, ha, ?_, ?_⟩
    · rcases (not_outside_iff _ _ _).1 hlat with hnan | hw
      · exact absurd (congrArg JsValue.number hnan) h3
      · exact hw
    · rcases (not_outside_iff _ _ _).1 hlng with hnan | hw
      · exact absurd (congrArg JsValue.number hnan) h4
      · exact hw

/-- C8 at the table reached by one accepted insert, and at the tuple of that insert. -/
theorem stored_schools_valid_witness :
    School.Valid ⟨1, "Alpha", "1 Main St", 0, 0⟩
    ∧ ∃ (name address : String) (lat lng : JsNum),
        [JsValue.string "Alpha", .string "1 Main St", .number (.fin 0), .number (.fin 0)]
          = [.string name, .string address, .number lat, .number lng]
        ∧ (⟨.string "Alpha", .string "1 Main St", .number (.fin 0), .number (.fin 0)⟩ : Body)
          = ⟨.string name, .string address, .number lat, .number lng⟩
        ∧ name ≠ "" ∧ address ≠ ""
        ∧ lat.Within (-90) 90 ∧ lng.Within (-180) 180 :=
  ⟨(stored_schools_valid nullKeys).1
      [.addSchool ⟨.string "Alpha", .string "1 Main St", .number (.fin 0), .number (.fin 0)⟩
        none]
      ⟨1, "Alpha", "1 Main St", 0, 0⟩
      (by
        rw [run, runFrom_cons]
        simp only [serve]
        rw [addSchool_accepted nullKeys (initializeDb none) "Alpha" "1 Main St" 0 0
          (by decide) (by decide) (by decide) (by decide) (by norm_num) (by norm_num)
          (by decide), roundBinary_zero]
        exact List.mem_singleton.2 rfl),
    (stored_schools_valid nullKeys).2 Db (mysqlPool nullKeys none)
      ⟨.string "Alpha", .string "1 Main St", .number (.fin 0), .number (.fin 0)⟩
      (initializeDb none)
      [.string "Alpha", .string "1 Main St", .number (.fin 0), .number (.fin 0)]
      ⟨by decide, by decide, by decide, by decide⟩
      (by
        rw [addSchool_accepted nullKeys (initializeDb none) "Alpha" "1 Main St" 0 0
          (by decide) (by decide) (by decide) (by decide) (by norm_num) (by norm_num)
          (by decide)]
        exact List.mem_singleton.2 rfl)⟩

/-! ## C9: the missing-field error -/

/-- C9, as stated, fails: a body whose latitude is `null` (name and address text,
longitude 0) is answered with the type message, not with the missing-field message. -/
theorem addSchool_null_latitude_type_error :
    (addSchool (mysqlPool nullKeys none)
        ⟨.string "Alpha", .string "1 Main St", .null, .number (.fin 0)⟩
        (initializeDb none)).response
      = ⟨400, .error "Latitude and longitude must be numbers"⟩
    ∧ (addSchool (mysqlPool nullKeys none)
        ⟨.string "Alpha", .string "1 Main St", .null, .number (.fin 0)⟩
        (initializeDb none)).response
      ≠ ⟨400, .error "All fields (name, address, latitude, longitude) are required"⟩ := by
  constructor
  · rfl
  · decide

/-- C9, amended: for every body in which name or address is absent or `null`, or latitude
or longitude is absent, the answer is 400 with the missing-field message; a `null`
latitude or longitude, with both coordinates present and name and address non-empty text,
is answered 400 with the type message instead. -/
theorem addSchool_missing_field_error {σ : Type} (pool : Pool σ) (body : Body) (s : σ) :
    ((body.name = .undefined ∨ body.name = .null ∨ body.address = .undefined
        ∨ body.address = .null ∨ body.latitude = .undefined ∨ body.longitude = .undefined) →
      (addSchool pool body s).response
        = ⟨400, .error "All fields (name, address, latitude, longitude) are required"⟩)
    ∧ (∀ name address : String, name ≠ "" → address ≠ "" →
        body.name = .string name → body.address = .string address →
        body.latitude ≠ .undefined → body.longitude ≠ .undefined →
        (body.latitude = .null ∨ body.longitude = .null) →
        (addSchool pool body s).response
          = ⟨400, .error "Latitude and longitude must be numbers"⟩) := by
  obtain ⟨n, a, la, lo⟩ := body
  refine ⟨fun h => ?_, ?_⟩
  · simp only at h
    rcases h with h | h | h | h | h | h <;> subst h <;>
      simp [addSchool, JsValue.truthy, badRequest]
  · intro name address hn ha h1 h2 h3 h4 h5
    simp only at h1 h2 h3 h4 h5
    subst h1 h2
    cases la <;> cases lo <;>
      simp_all [addSchool, JsValue.truthy, JsValue.typeOf, badRequest]

/-- C9 at a `null` name, and at a `null` longitude. -/
theorem addSchool_missing_field_error_witness :
    (addSchool (mysqlPool nullKeys none)
        ⟨.null, .string "1 Main St", .number (.fin 0), .number (.fin 0)⟩
        (initializeDb none)).response
      = ⟨400, .error "All fields (name, address, latitude, longitude) are required"⟩
    ∧ (addSchool (mysqlPool nullKeys none)
        ⟨.string "Alpha", .string "1 Main St", .number (.fin 0), .null⟩
        (initializeDb none)).response
      = ⟨400, .error "Latitude and longitude must be numbers"⟩ :=
  ⟨(addSchool_missing_field_error (mysqlPool nullKeys none)
      ⟨.null, .string "1 Main St", .number (.fin 0), .number (.fin 0)⟩ (initializeDb none)).1
      (Or.inr (Or.inl rfl)),
    (addSchool_missing_field_error (mysqlPool nullKeys none)
      ⟨.string "Alpha", .string "1 Main St", .number (.fin 0), .null⟩ (initializeDb none)).2
      "Alpha" "1 Main St" (by decide) (by decide) rfl rfl (by decide) (by decide)
      (Or.inr rfl)⟩

/-! ## C10: the type error -/

/-- C10, as stated, fails: a body whose name is the number 0 (present, not `null`, not
text; the other three fields valid) is answered with the missing-field message, not with
a type message. -/
theorem addSchool_zero_name_missing_error :
    (addSchool (mysqlPool nullKeys none)
        ⟨.number (.fin 0), .string "1 Main St", .number (.fin 0), .number (.fin 0)⟩
        (initializeDb none)).response
      = ⟨400, .error "All fields (name, address, latitude, longitude) are required"⟩
    ∧ (addSchool (mysqlPool nullKeys none)
        ⟨.number (.fin 0), .string "1 Main St", .number (.fin 0), .number (.fin 0)⟩
        (initializeDb none)).response
      ≠ ⟨400, .error "Name and address must be strings"⟩ := by
  constructor
  · rfl
  · decide

/-- C10, amended: for every body in which name and address are truthy (present, not
`null`, not `false`, `0`, `NaN` or the empty text) and latitude and longitude are present:
if name or address is not text the answer is 400 with the text message; if both are text
and latitude or longitude is not a number the answer is 400 with the number message;
nothing is executed in either case. -/
theorem addSchool_type_mismatch {σ : Type} (pool : Pool σ) (body : Body) (s : σ)
    (hn : body.name.truthy = true) (ha : body.address.truthy = true)
    (hlat : body.latitude ≠ .undefined) (hlng : body.longitude ≠ .undefined) :
    ((body.name.typeOf ≠ "string" ∨ body.address.typeOf ≠ "string") →
      addSchool pool body s = ⟨⟨400, .error "Name and address must be strings"⟩, s, []⟩)
    ∧ (body.name.typeOf = "string" → body.address.typeOf = "string" →
        (body.latitude.typeOf ≠ "number" ∨ body.longitude.typeOf ≠ "number") →
      addSchool pool body s
        = ⟨⟨400, .error "Latitude and longitude must be numbers"⟩, s, []⟩) := by
  obtain ⟨n, a, la, lo⟩ := body
  simp only at hn ha hlat hlng
  refine ⟨fun h => ?_, fun h1 h2 h3 => ?_⟩
  · simp only at h
    have : (n.typeOf != "string" || a.typeOf != "string") = true := by
      rcases h with h | h <;> simp [h]
    simp [addSchool, hn, ha, hlat, hlng, this, badRequest]
  · simp only at h1 h2 h3
    cases la <;> cases lo <;>
      simp_all [addSchool, JsValue.typeOf, badRequest]

/-- C10 at the number 7 as name, and at the numeric string `12.5` as latitude. -/
theorem addSchool_type_mismatch_witness :
    addSchool (mysqlPool nullKeys none)
        ⟨.number (.fin 7), .string "1 Main St", .number (.fin 0), .number (.fin 0)⟩
        (initializeDb none)
      = ⟨⟨400, .error "Name and address must be strings"⟩, initializeDb none, []⟩
    ∧ addSchool (mysqlPool nullKeys none)
        ⟨.string "Alpha", .string "1 Main St", .string "12.5", .number (.fin 0)⟩
        (initializeDb none)
      = ⟨⟨400, .error "Latitude and longitude must be numbers"⟩, initializeDb none, []⟩ :=
  ⟨(addSchool_type_mismatch (mysqlPool nullKeys none)
      ⟨.number (.fin 7), .string "1 Main St", .number (.fin 0), .number (.fin 0)⟩
      (initializeDb none) (by decide) (by decide) (by decide) (by decide)).1
      (Or.inl (by decide)),
    (addSchool_type_mismatch (mysqlPool nullKeys none)
      ⟨.string "Alpha", .string "1 Main St", .string "12.5", .number (.fin 0)⟩
      (initializeDb none) (by decide) (by decide) (by decide) (by decide)).2
      (by decide) (by decide) (Or.inl (by decide))⟩

end SchoolApi
